import Mathlib

/-!
Verification development for the NBA standings tracker
(`nba_tracker.py`, `web_app.py`, `update_data.py`).

The standings aggregation and elimination engine is embedded shallowly:

* `calculate_friend_totals` mirrors the Python function of the same name.
  The module-level globals that the Python code reads implicitly — the
  roster table `TEAM_ASSIGNMENTS` and the head-to-head counts produced by
  `get_remaining_head_to_head()` (which itself reads the cached season
  schedule and the current date) — are passed as explicit arguments.
* Dictionaries are modelled as association lists; `List.lookup` plays the
  role of `dict.get`.
* Dates are ISO-8601 strings in the source and are compared with the
  string orders `<` and `<=`; on ISO-8601 dates the lexicographic order
  coincides with the chronological order, so dates are modelled as `Nat`
  and compared with the numeric orders.
* Python float arithmetic on the derived ratios is modelled as exact
  rational arithmetic; integer counters are `Nat`, and quantities that can
  go negative in Python (`games_remaining`) are `Int`.
-/

/-- Canonical per-team statistics record, as produced by
`fetch_team_stats_espn` or `fetch_team_stats_nba`: the keys
`wins`, `losses`, `games_played` and `total_plus_minus` are the ones read
by `calculate_friend_totals`. -/
structure TeamStats where
  wins : Nat
  losses : Nat
  games_played : Nat
  total_plus_minus : ℚ
deriving DecidableEq, Repr

/-- The team-stats input of `calculate_friend_totals`: a mapping from team
name to statistics record. -/
abbrev TeamData := List (String × TeamStats)

/-- A roster mapping: participant name to list of owned team names,
modelling the `TEAM_ASSIGNMENTS` dictionary shape. -/
abbrev Assignments := List (String × List String)

/-- The head-to-head counts mapping returned by
`get_remaining_head_to_head`. -/
abbrev H2HCounts := List (String × Nat)

/-- One participant entry of the standings snapshot: the fields stored
into `friend_totals[friend]` by `calculate_friend_totals`. -/
structure FriendEntry where
  total_wins : Nat
  total_losses : Nat
  total_games : Nat
  win_pct : ℚ
  point_diff_per_game : ℚ
  games_remaining : Int
  max_possible_win_pct : ℚ
  teams : List String
  h2h_remaining : Nat
  is_eliminated : Bool
deriving DecidableEq, Repr

/-- A single future game of the cached season schedule
(`_full_season_schedule` entries: date, home team, away team). -/
structure Fixture where
  date : Nat
  home : String
  away : String
deriving DecidableEq, Repr

/-- One entry of a team history list as built by
`fetch_historical_standings` / `update_historical_from_espn`:
cumulative record of the team as of `date`. -/
structure GameRecord where
  date : Nat
  wins : Nat
  losses : Nat
  win_pct : ℚ
deriving DecidableEq, Repr

/-- The per-team record dictionary value (`team_records[team]`): running
totals plus the chronological history list. -/
structure TeamRecord where
  wins : Nat
  losses : Nat
  history : List GameRecord
deriving DecidableEq, Repr

/-- The roster table of `nba_tracker.py` (`TEAM_ASSIGNMENTS`), fixed for
the 2024-25 season: seven real participants of four teams each plus the
special `Undrafted` bucket. -/
def TEAM_ASSIGNMENTS : Assignments :=
  [("JJ", ["Oklahoma City Thunder", "San Antonio Spurs", "Detroit Pistons", "New Orleans Pelicans"]),
   ("Andy", ["Cleveland Cavaliers", "Los Angeles Lakers", "Milwaukee Bucks", "Washington Wizards"]),
   ("Nate", ["Orlando Magic", "Atlanta Hawks", "Memphis Grizzlies", "Phoenix Suns"]),
   ("Chris", ["Golden State Warriors", "Indiana Pacers", "Dallas Mavericks", "Charlotte Hornets"]),
   ("Adam", ["Denver Nuggets", "Boston Celtics", "Miami Heat", "Sacramento Kings"]),
   ("Duke", ["New York Knicks", "LA Clippers", "Toronto Raptors", "Chicago Bulls"]),
   ("Nick", ["Houston Rockets", "Minnesota Timberwolves", "Philadelphia 76ers", "Portland Trail Blazers"]),
   ("Undrafted", ["Brooklyn Nets", "Utah Jazz"])]

/-- The running total `for team in teams: if team in team_data: total += g(team_data[team])`
of `calculate_friend_totals`, one instance per summed field. -/
def statSum {M : Type} [AddCommMonoid M] (g : TeamStats → M) (ts : List String) (d : TeamData) : M :=
  ts.foldl (fun acc t =>
    match d.lookup t with
    | some s => acc + g s
    | none => acc) 0

/-- The first loop body of `calculate_friend_totals`: sums the stats of
the resolved roster teams, derives the ratios with their zero-denominator
guards, computes `games_remaining = len(teams) * 82 - total_games_played`
and the maximum-possible-wins percentage, and attaches the head-to-head
count `head_to_head.get(friend, 0)`.  The Python code initialises
`is_eliminated` to `False` here (`True` for Undrafted) and rewrites it in
the final loop; the final value is applied in `calculate_friend_totals`. -/
def mkEntry (f : String) (ts : List String) (d : TeamData) (h2h : H2HCounts) : FriendEntry :=
  let total_wins : Nat := statSum (fun s => s.wins) ts d
  let total_losses : Nat := statSum (fun s => s.losses) ts d
  let total_plus_minus : ℚ := statSum (fun s => s.total_plus_minus) ts d
  let total_games_played : Nat := statSum (fun s => s.games_played) ts d
  let total_possible_games : Nat := ts.length * 82
  let games_remaining : Int := (total_possible_games : Int) - (total_games_played : Int)
  let max_possible_wins : Int := (total_wins : Int) + games_remaining
  let max_possible_games : Nat := total_possible_games
  { total_wins := total_wins
    total_losses := total_losses
    total_games := total_wins + total_losses
    win_pct := if 0 < total_wins + total_losses then
        (total_wins : ℚ) / ((total_wins : ℚ) + (total_losses : ℚ)) else 0
    point_diff_per_game := if 0 < total_games_played then
        total_plus_minus / (total_games_played : ℚ) else 0
    games_remaining := games_remaining
    max_possible_win_pct := if 0 < max_possible_games then
        (max_possible_wins : ℚ) / (max_possible_games : ℚ) else 0
    teams := ts
    h2h_remaining := (h2h.lookup f).getD 0
    is_eliminated := false }

/-- The `friend_totals` dictionary of `calculate_friend_totals` after the
aggregation loops, before the elimination flags are finalised. -/
def baseTotals (a : Assignments) (d : TeamData) (h2h : H2HCounts) : List (String × FriendEntry) :=
  a.map (fun p => (p.1, mkEntry p.1 p.2 d h2h))

/-- `max_possible_wins` as recomputed inside the elimination loop:
current wins plus remaining games minus the head-to-head penalty. -/
def maxPossibleWins (e : FriendEntry) : Int :=
  (e.total_wins : Int) + e.games_remaining - (e.h2h_remaining : Int)

/-- `best_other_min_wins` of the elimination loop: starting from `0`, the
maximum over every other participant besides Undrafted of
`total_wins + h2h_remaining` (their minimum guaranteed wins). -/
def bestOtherGuarantee (base : List (String × FriendEntry)) (f : String) : Int :=
  base.foldl (fun acc p =>
    if p.1 = f ∨ p.1 = "Undrafted" then acc
    else max acc ((p.2.total_wins : Int) + (p.2.h2h_remaining : Int))) 0

/-- `calculate_friend_totals(team_data)` of `nba_tracker.py`.  The Python
function reads the globals `TEAM_ASSIGNMENTS` and the result of
`get_remaining_head_to_head()`; both are explicit arguments here.  After
the aggregation pass it marks Undrafted eliminated unconditionally and
every other participant eliminated exactly when
`max_possible_wins < best_other_min_wins` (a tie is not elimination). -/
def calculate_friend_totals (a : Assignments) (d : TeamData) (h2h : H2HCounts) :
    List (String × FriendEntry) :=
  let base := baseTotals a d h2h
  base.map (fun p =>
    (p.1, { p.2 with
      is_eliminated :=
        if p.1 = "Undrafted" then true
        else decide (maxPossibleWins p.2 < bestOtherGuarantee base p.1) }))

/-- The `team_to_friend` reverse-lookup dictionary built inside
`get_remaining_head_to_head`: later roster entries overwrite earlier ones
on a duplicated team name, hence the lookup on the reversed pair list. -/
def teamToFriend (a : Assignments) (t : String) : Option String :=
  ((a.flatMap (fun p => p.2.map (fun x => (x, p.1)))).reverse).lookup t

/-- `head_to_head_counts[f] = head_to_head_counts.get(f, 0) + 1`. -/
def bumpCount (c : H2HCounts) (f : String) : H2HCounts :=
  if (c.lookup f).isSome then
    c.map (fun p => if p.1 = f then (p.1, p.2 + 1) else p)
  else c ++ [(f, 1)]

/-- `get_remaining_head_to_head()` of `nba_tracker.py`: with no cached
schedule it returns the empty mapping; otherwise it counts the fixtures
dated on or after today whose home and away teams belong to the same
participant other than Undrafted.  The schedule global and the current
date are explicit arguments; a missing (`None`) schedule and an empty one
are both falsy in Python and are modelled by the empty list. -/
def get_remaining_head_to_head (schedule : List Fixture) (today : Nat) (a : Assignments) :
    H2HCounts :=
  if schedule.isEmpty then []
  else schedule.foldl (fun counts g =>
    if g.date < today then counts
    else
      match teamToFriend a g.home, teamToFriend a g.away with
      | some hf, some af =>
          if hf = af ∧ hf ≠ "Undrafted" then bumpCount counts hf else counts
      | _, _ => counts) []

/-- Modelled from the spec: the recalculate operation (the
`/api/recalculate` endpoint exercised by `test_sandbox.py` is not among
the source files, only its test is).  Per the spec it accepts an
alternate roster mapping and the already-fetched team stats and returns a
fresh standings snapshot computed by the engine; the cached season
schedule and the current date, which `calculate_friend_totals` reads
implicitly through `get_remaining_head_to_head`, are explicit arguments
here. -/
def recalculate (roster : Assignments) (stats : TeamData)
    (schedule : List Fixture) (today : Nat) : List (String × FriendEntry) :=
  calculate_friend_totals roster stats (get_remaining_head_to_head schedule today roster)

/-- The inner scan of `calculate_friend_historical_standings`: walk the
history list, keeping the wins and losses of the last record dated on or
before the target date (`latest_wins` / `latest_losses`, starting from
zero). -/
def latestOnOrBefore (history : List GameRecord) (date : Nat) : Nat × Nat :=
  history.foldl (fun acc r => if r.date ≤ date then (r.wins, r.losses) else acc) (0, 0)

/-- Per-team contribution in `calculate_friend_historical_standings`:
guarded by `team in team_records and team_records[team]["history"]`;
an unresolved team or an empty history contributes zero wins and losses. -/
def teamContribution (records : List (String × TeamRecord)) (team : String) (date : Nat) :
    Nat × Nat :=
  match records.lookup team with
  | some rec => if rec.history.isEmpty then (0, 0) else latestOnOrBefore rec.history date
  | none => (0, 0)

/-- The per-date value of `calculate_friend_historical_standings`: summed
wins over summed games across the roster, times 100, and 0 when the
roster has no games played as of that date. -/
def friendPointAt (records : List (String × TeamRecord)) (ts : List String) (date : Nat) : ℚ :=
  let total_wins : Nat := (ts.map (fun t => (teamContribution records t date).1)).sum
  let total_losses : Nat := (ts.map (fun t => (teamContribution records t date).2)).sum
  if 0 < total_wins + total_losses then
    (total_wins : ℚ) / ((total_wins : ℚ) + (total_losses : ℚ)) * 100
  else 0

/-- `calculate_friend_historical_standings(team_records, dates)` of
`nba_tracker.py`: `None` when either input is empty, otherwise one time
series per roster participant over the given date axis.  The roster
global is an explicit argument. -/
def calculate_friend_historical_standings (a : Assignments)
    (records : List (String × TeamRecord)) (dates : List Nat) :
    Option (List (String × List (Nat × ℚ))) :=
  if records.isEmpty ∨ dates.isEmpty then none
  else some (a.map (fun p => (p.1, dates.map (fun dt => (dt, friendPointAt records p.2 dt)))))

/-- Stated from the spec wording, for comparison with the code: the most
recent recorded result dated on or before the target date is the first
match when scanning the chronological history backwards. -/
def mostRecentOnOrBefore (history : List GameRecord) (date : Nat) : Option GameRecord :=
  (history.reverse).find? (fun r => decide (r.date ≤ date))

/-- Stated from the spec wording: per-team carry-forward value at a date,
zero when the team has no recorded result on or before that date. -/
def specTeamContribution (records : List (String × TeamRecord)) (team : String) (date : Nat) :
    Nat × Nat :=
  match records.lookup team with
  | some rec => ((mostRecentOnOrBefore rec.history date).map (fun r => (r.wins, r.losses))).getD (0, 0)
  | none => (0, 0)

/-- Stated from the spec wording: the timeline value obtained from the
carry-forward per-team records, with the zero-games case defined as 0. -/
def specFriendPointAt (records : List (String × TeamRecord)) (ts : List String) (date : Nat) : ℚ :=
  let total_wins : Nat := (ts.map (fun t => (specTeamContribution records t date).1)).sum
  let total_losses : Nat := (ts.map (fun t => (specTeamContribution records t date).2)).sum
  if 0 < total_wins + total_losses then
    (total_wins : ℚ) / ((total_wins : ℚ) + (total_losses : ℚ)) * 100
  else 0

/-! ### Helper lemmas about the aggregation sums -/

/-- The per-team contribution to a summed field: the stat of a resolved
team, zero for an unresolved one. -/
def lookupStat {M : Type} [AddCommMonoid M] (g : TeamStats → M) (d : TeamData) (t : String) : M :=
  match d.lookup t with
  | some s => g s
  | none => 0

theorem statSum_foldl_eq {M : Type} [AddCommMonoid M] (g : TeamStats → M) (d : TeamData)
    (ts : List String) (acc : M) :
    ts.foldl (fun acc t =>
      match d.lookup t with
      | some s => acc + g s
      | none => acc) acc = acc + (ts.map (lookupStat g d)).sum := by
  induction ts generalizing acc with
  | nil => simp
  | cons t ts ih =>
    simp only [List.foldl_cons, List.map_cons, List.sum_cons, ih, lookupStat]
    cases d.lookup t with
    | none => simp
    | some s => rw [add_assoc]

theorem statSum_eq {M : Type} [AddCommMonoid M] (g : TeamStats → M) (ts : List String)
    (d : TeamData) : statSum g ts d = (ts.map (lookupStat g d)).sum := by
  simpa using statSum_foldl_eq g d ts 0

theorem statSum_filter {M : Type} [AddCommMonoid M] (g : TeamStats → M) (ts : List String)
    (d : TeamData) :
    statSum g ts d = statSum g (ts.filter fun t => (d.lookup t).isSome) d := by
  simp only [statSum_eq]
  induction ts with
  | nil => simp
  | cons t ts ih =>
    by_cases h : (d.lookup t).isSome
    · obtain ⟨s, hs⟩ := Option.isSome_iff_exists.mp h
      simp [List.filter_cons, h, lookupStat, hs, ih]
    · have hn : d.lookup t = none := Option.not_isSome_iff_eq_none.mp h
      simp [List.filter_cons, h, lookupStat, hn, ih]

theorem lookup_mem {α β : Type} [BEq α] [LawfulBEq α] {l : List (α × β)} {k : α} {v : β}
    (h : l.lookup k = some v) : (k, v) ∈ l := by
  induction l with
  | nil => simp at h
  | cons p l ih =>
    rw [show p = (p.1, p.2) from rfl, List.lookup_cons] at h
    by_cases hk : k == p.1
    · simp only [hk] at h
      obtain rfl := (beq_iff_eq).mp hk
      obtain rfl : p.2 = v := by simpa using h
      exact List.mem_cons_self _ _
    · simp only [Bool.not_eq_true] at hk
      simp only [hk] at h
      exact List.mem_cons_of_mem _ (ih h)

theorem statSum_le_const (c : Nat) (g : TeamStats → Nat) (ts : List String) (d : TeamData)
    (hb : ∀ p ∈ d, g p.2 ≤ c) : statSum g ts d ≤ c * ts.length := by
  rw [statSum_eq]
  calc (ts.map (lookupStat g d)).sum ≤ (ts.map (fun _ => c)).sum := by
        apply List.sum_le_sum
        intro t _
        unfold lookupStat
        cases hl : d.lookup t with
        | none => exact Nat.zero_le c
        | some s => exact hb (t, s) (lookup_mem hl)
    _ = c * ts.length := by simp [List.map_const, List.sum_replicate, smul_eq_mul, Nat.mul_comm]

/-! ### Structure of the computed snapshot -/

/-- The snapshot entry of participant `f` with roster `ts`: the aggregated
entry with the final elimination flag applied. -/
def finalEntry (a : Assignments) (d : TeamData) (h2h : H2HCounts) (f : String)
    (ts : List String) : FriendEntry :=
  { mkEntry f ts d h2h with
    is_eliminated :=
      if f = "Undrafted" then true
      else decide (maxPossibleWins (mkEntry f ts d h2h) <
        bestOtherGuarantee (baseTotals a d h2h) f) }

theorem mem_calculate_iff (a : Assignments) (d : TeamData) (h2h : H2HCounts)
    (f : String) (e : FriendEntry) :
    (f, e) ∈ calculate_friend_totals a d h2h ↔ ∃ ts, (f, ts) ∈ a ∧ e = finalEntry a d h2h f ts := by
  constructor
  · intro h
    simp only [calculate_friend_totals, baseTotals, List.map_map, List.mem_map,
      Function.comp] at h
    obtain ⟨⟨f0, ts0⟩, hmem, heq⟩ := h
    obtain ⟨hf, he⟩ := Prod.mk.injEq .. ▸ heq
    exact ⟨ts0, hf ▸ hmem, by rw [← he, ← hf]; rfl⟩
  · rintro ⟨ts, hmem, rfl⟩
    simp only [calculate_friend_totals, baseTotals, List.map_map]
    exact List.mem_map_of_mem _ hmem

theorem calculate_keys (a : Assignments) (d : TeamData) (h2h : H2HCounts) :
    (calculate_friend_totals a d h2h).map Prod.fst = a.map Prod.fst := by
  simp [calculate_friend_totals, baseTotals, List.map_map, Function.comp]

theorem finalEntry_total_wins (a : Assignments) (d : TeamData) (h2h : H2HCounts)
    (f : String) (ts : List String) :
    (finalEntry a d h2h f ts).total_wins = statSum (fun s => s.wins) ts d := rfl

theorem finalEntry_total_losses (a : Assignments) (d : TeamData) (h2h : H2HCounts)
    (f : String) (ts : List String) :
    (finalEntry a d h2h f ts).total_losses = statSum (fun s => s.losses) ts d := rfl

theorem finalEntry_games_remaining (a : Assignments) (d : TeamData) (h2h : H2HCounts)
    (f : String) (ts : List String) :
    (finalEntry a d h2h f ts).games_remaining =
      ((ts.length * 82 : Nat) : Int) - ((statSum (fun s => s.games_played) ts d : Nat) : Int) := rfl

theorem finalEntry_h2h_remaining (a : Assignments) (d : TeamData) (h2h : H2HCounts)
    (f : String) (ts : List String) :
    (finalEntry a d h2h f ts).h2h_remaining = (h2h.lookup f).getD 0 := rfl

theorem finalEntry_teams (a : Assignments) (d : TeamData) (h2h : H2HCounts)
    (f : String) (ts : List String) : (finalEntry a d h2h f ts).teams = ts := rfl

theorem finalEntry_is_eliminated (a : Assignments) (d : TeamData) (h2h : H2HCounts)
    (f : String) (ts : List String) (hf : f ≠ "Undrafted") :
    (finalEntry a d h2h f ts).is_eliminated =
      decide (maxPossibleWins (finalEntry a d h2h f ts) <
        bestOtherGuarantee (baseTotals a d h2h) f) := by
  have h : (finalEntry a d h2h f ts).is_eliminated =
      if f = "Undrafted" then true
      else decide (maxPossibleWins (finalEntry a d h2h f ts) <
        bestOtherGuarantee (baseTotals a d h2h) f) := rfl
  rw [h, if_neg hf]

theorem elim_flag_spec (a : Assignments) (d : TeamData) (h2h : H2HCounts)
    (f : String) (e : FriendEntry) (hmem : (f, e) ∈ calculate_friend_totals a d h2h)
    (hf : f ≠ "Undrafted") :
    e.is_eliminated = true ↔ maxPossibleWins e < bestOtherGuarantee (baseTotals a d h2h) f := by
  obtain ⟨ts, -, rfl⟩ := (mem_calculate_iff a d h2h f e).mp hmem
  rw [finalEntry_is_eliminated a d h2h f ts hf]
  exact decide_eq_true_iff

theorem undrafted_flag_spec (a : Assignments) (d : TeamData) (h2h : H2HCounts)
    (e : FriendEntry) (hmem : ("Undrafted", e) ∈ calculate_friend_totals a d h2h) :
    e.is_eliminated = true := by
  obtain ⟨ts, -, rfl⟩ := (mem_calculate_iff a d h2h _ e).mp hmem
  simp [finalEntry]

theorem bestOther_ignores_undrafted (base : List (String × FriendEntry)) (f : String) :
    bestOtherGuarantee base f =
      bestOtherGuarantee (base.filter fun p => !(p.1 == "Undrafted")) f := by
  unfold bestOtherGuarantee
  generalize (0 : Int) = acc
  induction base generalizing acc with
  | nil => rfl
  | cons p base ih =>
    by_cases hu : p.1 = "Undrafted"
    · rw [List.filter_cons_of_neg (by simp [hu]), List.foldl_cons, if_pos (Or.inr hu)]
      exact ih _
    · rw [List.filter_cons_of_pos (by simp [hu]), List.foldl_cons, List.foldl_cons]
      exact ih _

/-! ### Attribution counting (wins conservation) -/

theorem sum_ite_key (g : TeamStats → Nat) (d : TeamData) (t : String)
    (hnd : (d.map Prod.fst).Nodup) :
    (d.map (fun p => if p.1 = t then g p.2 else 0)).sum = lookupStat g d t := by
  induction d with
  | nil => simp [lookupStat]
  | cons p d ih =>
    obtain ⟨k, v⟩ := p
    simp only [List.map_cons, List.nodup_cons, List.mem_map] at hnd
    obtain ⟨hk, hnd'⟩ := hnd
    simp only [List.map_cons, List.sum_cons]
    by_cases hkt : k = t
    · rw [if_pos hkt]
      have hzero : (d.map (fun q => if q.1 = t then g q.2 else 0)).sum = 0 := by
        apply List.sum_eq_zero
        intro x hx
        obtain ⟨q, hq, rfl⟩ := List.mem_map.mp hx
        have hqt : q.1 ≠ t := by
          intro h
          exact hk ⟨q, hq, h.trans hkt.symm⟩
        rw [if_neg hqt]
      rw [hzero]
      simp [lookupStat, List.lookup_cons, beq_iff_eq, hkt.symm]
    · rw [if_neg hkt]
      have : lookupStat g ((k, v) :: d) t = lookupStat g d t := by
        simp only [lookupStat, List.lookup_cons]
        have : (t == k) = false := by
          simp [beq_iff_eq]
          exact fun h => hkt h.symm
        rw [this]
      rw [this, Nat.zero_add]
      exact ih hnd'

theorem sum_lookup_eq_counts (g : TeamStats → Nat) (d : TeamData) (L : List String)
    (hnd : (d.map Prod.fst).Nodup) :
    (L.map (lookupStat g d)).sum = (d.map (fun p => L.count p.1 * g p.2)).sum := by
  induction L with
  | nil => simp
  | cons t L ih =>
    simp only [List.map_cons, List.sum_cons, ih]
    have hcount : ∀ p : String × TeamStats,
        List.count p.1 (t :: L) * g p.2 =
          List.count p.1 L * g p.2 + (if p.1 = t then g p.2 else 0) := by
      intro p
      rw [List.count_cons]
      by_cases h : p.1 = t
      · have : (t == p.1) = true := by simp [beq_iff_eq, h.symm]
        rw [this]
        simp [Nat.add_mul, h]
      · have : (t == p.1) = false := by
          simp [beq_iff_eq]
          exact fun hc => h hc.symm
        rw [this]
        simp [h]
    rw [List.map_congr_left (fun p _ => hcount p), List.sum_map_add,
      sum_ite_key g d t hnd, Nat.add_comm]

theorem calc_map_total_wins (a : Assignments) (d : TeamData) (h2h : H2HCounts) :
    (calculate_friend_totals a d h2h).map (fun p => p.2.total_wins) =
      a.map (fun p => statSum (fun s => s.wins) p.2 d) := by
  simp only [calculate_friend_totals, baseTotals, List.map_map]
  rfl

theorem sum_over_rosters {M : Type} [AddCommMonoid M] (a : Assignments) (c : String → M) :
    (a.map (fun p => (p.2.map c).sum)).sum = (((a.map Prod.snd).flatten).map c).sum := by
  rw [List.map_flatten, List.sum_flatten, List.map_map, List.map_map]
  rfl

/-! ### Carry-forward semantics of the historical timeline -/

theorem foldl_latest_eq (date : Nat) (h : List GameRecord) (acc : Nat × Nat) :
    h.foldl (fun acc r => if r.date ≤ date then (r.wins, r.losses) else acc) acc =
      (((h.reverse.find? (fun r => decide (r.date ≤ date))).map
        (fun r => (r.wins, r.losses))).getD acc) := by
  induction h generalizing acc with
  | nil => rfl
  | cons r h ih =>
    rw [List.foldl_cons, ih, List.reverse_cons, List.find?_append]
    cases hf : h.reverse.find? (fun r => decide (r.date ≤ date)) with
    | some x => rfl
    | none =>
      simp only [Option.none_or]
      by_cases hd : r.date ≤ date
      · simp [List.find?, hd]
      · simp [List.find?, hd]

theorem teamContribution_eq_spec (records : List (String × TeamRecord)) (t : String)
    (date : Nat) : teamContribution records t date = specTeamContribution records t date := by
  cases hl : records.lookup t with
  | none => simp [teamContribution, specTeamContribution, hl]
  | some rec =>
    by_cases he : rec.history.isEmpty
    · have hnil : rec.history = [] := List.isEmpty_iff.mp he
      simp [teamContribution, specTeamContribution, mostRecentOnOrBefore, hl, he, hnil]
    · simp only [teamContribution, specTeamContribution, mostRecentOnOrBefore, hl]
      rw [if_neg he]
      exact foldl_latest_eq date rec.history (0, 0)

theorem friendPointAt_eq_spec (records : List (String × TeamRecord)) (ts : List String)
    (date : Nat) : friendPointAt records ts date = specFriendPointAt records ts date := by
  unfold friendPointAt specFriendPointAt
  simp only [teamContribution_eq_spec]

/-! ### The stored maximum-possible-wins percentage -/

theorem finalEntry_max_pct (a : Assignments) (d : TeamData) (h2h : H2HCounts)
    (f : String) (ts : List String) :
    (finalEntry a d h2h f ts).max_possible_win_pct =
      if 0 < ts.length * 82 then
        (((finalEntry a d h2h f ts).total_wins : ℚ) +
          ((finalEntry a d h2h f ts).games_remaining : ℚ)) / ((ts.length * 82 : Nat) : ℚ)
      else 0 := by
  have h : (finalEntry a d h2h f ts).max_possible_win_pct =
      if 0 < ts.length * 82 then
        ((((statSum (fun s => s.wins) ts d : Nat) : Int) +
          (finalEntry a d h2h f ts).games_remaining : Int) : ℚ) / ((ts.length * 82 : Nat) : ℚ)
      else 0 := rfl
  rw [h, ← finalEntry_total_wins a d h2h f ts]
  by_cases hc : 0 < ts.length * 82
  · rw [if_pos hc, if_pos hc]
    push_cast
    ring
  · rw [if_neg hc, if_neg hc]

theorem finalEntry_max_pct_ignores_h2h (a a2 : Assignments) (d : TeamData)
    (h2h h2h2 : H2HCounts) (f f2 : String) (ts : List String) :
    (finalEntry a d h2h f ts).max_possible_win_pct =
      (finalEntry a2 d h2h2 f2 ts).max_possible_win_pct := rfl

/-! ### Further projections of a snapshot entry -/

theorem finalEntry_total_games (a : Assignments) (d : TeamData) (h2h : H2HCounts)
    (f : String) (ts : List String) :
    (finalEntry a d h2h f ts).total_games =
      statSum (fun s => s.wins) ts d + statSum (fun s => s.losses) ts d := rfl

theorem finalEntry_win_pct (a : Assignments) (d : TeamData) (h2h : H2HCounts)
    (f : String) (ts : List String) :
    (finalEntry a d h2h f ts).win_pct =
      if 0 < statSum (fun s => s.wins) ts d + statSum (fun s => s.losses) ts d then
        (((statSum (fun s => s.wins) ts d : Nat) : ℚ)) /
          (((statSum (fun s => s.wins) ts d : Nat) : ℚ) +
            ((statSum (fun s => s.losses) ts d : Nat) : ℚ))
      else 0 := rfl

theorem finalEntry_point_diff (a : Assignments) (d : TeamData) (h2h : H2HCounts)
    (f : String) (ts : List String) :
    (finalEntry a d h2h f ts).point_diff_per_game =
      if 0 < statSum (fun s => s.games_played) ts d then
        statSum (fun s => s.total_plus_minus) ts d /
          ((statSum (fun s => s.games_played) ts d : Nat) : ℚ)
      else 0 := rfl

/-! ### Concrete instances used by the witnesses and counterexamples -/

/-- A two-participant roster with empty team lists, used as a minimal
concrete input. -/
def w1roster : Assignments := [("A", []), ("B", [])]

/-- The snapshot entry produced for a participant with an empty roster and
empty team data. -/
def w1entry : FriendEntry := ⟨0, 0, 0, 0, 0, 0, 0, [], 0, false⟩

/-- Team data whose single team reports 10 games played. -/
def c6wdata : TeamData := [("T1", ⟨5, 5, 10, 0⟩)]

/-- A roster where team T1 belongs to A and team T2 to Undrafted. -/
def c3wroster : Assignments := [("A", ["T1"]), ("Undrafted", ["T2"])]

/-- Team data with a single 3-1 team. -/
def c3wdata : TeamData := [("T1", ⟨3, 1, 4, 0⟩)]

/-- A roster where participant A owns T1 and T2 and participant B owns T3. -/
def c8roster : Assignments := [("A", ["T1", "T2"]), ("B", ["T3"])]

/-- A one-fixture schedule: T1 hosts T2 (both owned by A) on 2026-01-05. -/
def c8schedule : List Fixture := [⟨20260105, "T1", "T2"⟩]

/-- Team data where T1 stands at 10 wins and 10 losses. -/
def c7data : TeamData := [("T1", ⟨10, 10, 20, 0⟩)]

/-- The head-to-head counts for `c8roster` as of 2025-12-01: the T1-T2
fixture is still ahead, so A has one intra-roster game remaining. -/
def c7h2h : H2HCounts := get_remaining_head_to_head c8schedule 20251201 c8roster

/-- The snapshot entry of participant A for `c8roster`, `c7data` and
`c7h2h`: 10 current wins, 144 games remaining, 1 head-to-head game. -/
def c7entry : FriendEntry := finalEntry c8roster c7data c7h2h "A" ["T1", "T2"]

/-- A team-record mapping with one team and an empty history. -/
def c9wrecords : List (String × TeamRecord) := [("T1", ⟨0, 0, []⟩)]

/-! ### The claims -/

/-- Claim C1: in every computed snapshot, a non-Undrafted participant P is
marked eliminated exactly when `maxPossibleWins(P)` (current wins plus
games remaining minus the remaining head-to-head count) is strictly below
the maximum over the other non-Undrafted participants of their guaranteed
wins (current wins plus head-to-head count); equality is never
elimination. -/
theorem claim_C1 (a : Assignments) (d : TeamData) (h2h : H2HCounts) (f : String)
    (e : FriendEntry) (hmem : (f, e) ∈ calculate_friend_totals a d h2h)
    (hf : f ≠ "Undrafted") :
    (e.is_eliminated = true ↔
      maxPossibleWins e < bestOtherGuarantee (baseTotals a d h2h) f) ∧
    (maxPossibleWins e = bestOtherGuarantee (baseTotals a d h2h) f →
      e.is_eliminated = false) := by
  have h := elim_flag_spec a d h2h f e hmem hf
  refine ⟨h, fun heq => ?_⟩
  cases hb : e.is_eliminated with
  | false => rfl
  | true => exact absurd (heq ▸ h.mp hb) (lt_irrefl _)

/-- Witness for C1 at a concrete two-participant input. -/
theorem claim_C1_witness :
    (("A", w1entry) ∈ calculate_friend_totals w1roster [] []) ∧
    ("A" : String) ≠ "Undrafted" ∧
    ((w1entry.is_eliminated = true ↔
      maxPossibleWins w1entry < bestOtherGuarantee (baseTotals w1roster [] []) "A") ∧
    (maxPossibleWins w1entry = bestOtherGuarantee (baseTotals w1roster [] []) "A" →
      w1entry.is_eliminated = false)) :=
  ⟨by decide, by decide, claim_C1 _ _ _ _ _ (by decide) (by decide)⟩

/-- Claim C2: for every team-stats input the Undrafted participant is
flagged eliminated in the snapshot (for the programs roster and for any
roster containing Undrafted), and the `best_other_min_wins` fold is
unchanged when the Undrafted entries are removed, i.e. Undrafted is
excluded from the competitors whose guaranteed wins form the bound, and
its own flag is set outside the comparison. -/
theorem claim_C2 :
    (∀ (d : TeamData) (h2h : H2HCounts), ∃ e,
      ("Undrafted", e) ∈ calculate_friend_totals TEAM_ASSIGNMENTS d h2h ∧
      e.is_eliminated = true) ∧
    (∀ (a : Assignments) (d : TeamData) (h2h : H2HCounts) (e : FriendEntry),
      ("Undrafted", e) ∈ calculate_friend_totals a d h2h → e.is_eliminated = true) ∧
    (∀ (base : List (String × FriendEntry)) (f : String),
      bestOtherGuarantee base f =
        bestOtherGuarantee (base.filter fun p => !(p.1 == "Undrafted")) f) := by
  refine ⟨fun d h2h => ?_, fun a d h2h e hm => undrafted_flag_spec a d h2h e hm,
    fun base f => bestOther_ignores_undrafted base f⟩
  refine ⟨finalEntry TEAM_ASSIGNMENTS d h2h "Undrafted" ["Brooklyn Nets", "Utah Jazz"], ?_, ?_⟩
  · exact (mem_calculate_iff TEAM_ASSIGNMENTS d h2h "Undrafted" _).mpr
      ⟨["Brooklyn Nets", "Utah Jazz"], by decide, rfl⟩
  · simp [finalEntry]

/-- Witness for C2: the Undrafted flag at the empty team-stats input. -/
theorem claim_C2_witness :
    ∃ e, ("Undrafted", e) ∈ calculate_friend_totals TEAM_ASSIGNMENTS [] [] ∧
      e.is_eliminated = true :=
  claim_C2.1 [] []

/-- Claim C3: when every team name of the team-stats input occurs on
exactly one roster (Undrafted included), the snapshot attributes every
teams wins exactly once: the sum of `total_wins` over all participants
equals the sum of `wins` over all input teams. -/
theorem claim_C3 (a : Assignments) (d : TeamData) (h2h : H2HCounts)
    (hnd : (d.map Prod.fst).Nodup)
    (hcover : ∀ p ∈ d, ((a.map Prod.snd).flatten).count p.1 = 1) :
    ((calculate_friend_totals a d h2h).map (fun p => p.2.total_wins)).sum =
      (d.map (fun p => p.2.wins)).sum := by
  rw [calc_map_total_wins]
  have h1 : (a.map (fun p => statSum (fun s => s.wins) p.2 d)).sum =
      (a.map (fun p => ((p.2).map (lookupStat (fun s => s.wins) d)).sum)).sum := by
    congr 1
    exact List.map_congr_left (fun p _ => statSum_eq _ _ _)
  rw [h1, sum_over_rosters a (lookupStat (fun s => s.wins) d),
    sum_lookup_eq_counts _ d _ hnd]
  congr 1
  apply List.map_congr_left
  intro p hp
  rw [hcover p hp, Nat.one_mul]

/-- Witness for C3 at a roster that covers the single input team once. -/
theorem claim_C3_witness :
    ((c3wdata.map Prod.fst).Nodup) ∧
    (∀ p ∈ c3wdata, ((c3wroster.map Prod.snd).flatten).count p.1 = 1) ∧
    ((calculate_friend_totals c3wroster c3wdata []).map (fun p => p.2.total_wins)).sum =
      (c3wdata.map (fun p => p.2.wins)).sum :=
  ⟨by decide, by decide, claim_C3 _ _ _ (by decide) (by decide)⟩

/-- Claim C4: the aggregation produces an entry for every roster
participant; roster teams absent from the team-stats mapping contribute
zero to the summed wins, losses, games played and point differential
(each sum equals its restriction to the resolved teams); and
`games_remaining` is 82 times the full roster length minus the
games-played sum, so unresolved teams still count toward the 82-game
quota. -/
theorem claim_C4 (a : Assignments) (d : TeamData) (h2h : H2HCounts) (f : String)
    (ts : List String) (hmem : (f, ts) ∈ a) :
    ∃ e, (f, e) ∈ calculate_friend_totals a d h2h ∧
      e.total_wins = statSum (fun s => s.wins) (ts.filter fun t => (d.lookup t).isSome) d ∧
      e.total_losses = statSum (fun s => s.losses) (ts.filter fun t => (d.lookup t).isSome) d ∧
      statSum (fun s => s.games_played) ts d =
        statSum (fun s => s.games_played) (ts.filter fun t => (d.lookup t).isSome) d ∧
      statSum (fun s => s.total_plus_minus) ts d =
        statSum (fun s => s.total_plus_minus) (ts.filter fun t => (d.lookup t).isSome) d ∧
      e.games_remaining = ((ts.length * 82 : Nat) : Int) -
        ((statSum (fun s => s.games_played) ts d : Nat) : Int) := by
  refine ⟨finalEntry a d h2h f ts, (mem_calculate_iff a d h2h f _).mpr ⟨ts, hmem, rfl⟩,
    ?_, ?_, ?_, ?_, ?_⟩
  · rw [finalEntry_total_wins, statSum_filter]
  · rw [finalEntry_total_losses, statSum_filter]
  · exact statSum_filter _ ts d
  · exact statSum_filter _ ts d
  · exact finalEntry_games_remaining a d h2h f ts

/-- Witness for C4 at a roster whose only team is absent from the data. -/
theorem claim_C4_witness :
    (("A", ["T1"]) ∈ ([("A", ["T1"])] : Assignments)) ∧
    (∃ e, (("A", e) ∈ calculate_friend_totals [("A", ["T1"])] [("T2", ⟨1, 2, 3, 4⟩)] []) ∧
      e.total_wins = statSum (fun s => s.wins)
        (["T1"].filter fun t => (([("T2", (⟨1, 2, 3, 4⟩ : TeamStats))] : TeamData).lookup t).isSome)
        [("T2", ⟨1, 2, 3, 4⟩)] ∧
      e.total_losses = statSum (fun s => s.losses)
        (["T1"].filter fun t => (([("T2", (⟨1, 2, 3, 4⟩ : TeamStats))] : TeamData).lookup t).isSome)
        [("T2", ⟨1, 2, 3, 4⟩)] ∧
      statSum (fun s => s.games_played) ["T1"] [("T2", ⟨1, 2, 3, 4⟩)] =
        statSum (fun s => s.games_played)
          (["T1"].filter fun t => (([("T2", (⟨1, 2, 3, 4⟩ : TeamStats))] : TeamData).lookup t).isSome)
          [("T2", ⟨1, 2, 3, 4⟩)] ∧
      statSum (fun s => s.total_plus_minus) ["T1"] [("T2", ⟨1, 2, 3, 4⟩)] =
        statSum (fun s => s.total_plus_minus)
          (["T1"].filter fun t => (([("T2", (⟨1, 2, 3, 4⟩ : TeamStats))] : TeamData).lookup t).isSome)
          [("T2", ⟨1, 2, 3, 4⟩)] ∧
      e.games_remaining = (((["T1"] : List String).length * 82 : Nat) : Int) -
        ((statSum (fun s => s.games_played) ["T1"] [("T2", ⟨1, 2, 3, 4⟩)] : Nat) : Int)) :=
  ⟨by decide, claim_C4 _ _ [] _ _ (by decide)⟩

/-- Claim C5: with no season schedule the head-to-head query returns the
empty mapping, every snapshot entry has `h2h_remaining = 0`, and the
elimination comparison degrades to
`currentWins + gamesRemaining < bestOtherGuarantee` with no head-to-head
adjustment, instead of failing. -/
theorem claim_C5 (a : Assignments) (d : TeamData) (today : Nat) (f : String) (e : FriendEntry)
    (hmem : (f, e) ∈ calculate_friend_totals a d (get_remaining_head_to_head [] today a)) :
    get_remaining_head_to_head [] today a = [] ∧
    e.h2h_remaining = 0 ∧
    (f ≠ "Undrafted" →
      (e.is_eliminated = true ↔
        (e.total_wins : Int) + e.games_remaining < bestOtherGuarantee (baseTotals a d []) f)) := by
  have hempty : get_remaining_head_to_head [] today a = [] := rfl
  rw [hempty] at hmem
  have hh : e.h2h_remaining = 0 := by
    obtain ⟨ts, -, rfl⟩ := (mem_calculate_iff a d [] f e).mp hmem
    rw [finalEntry_h2h_remaining]
    rfl
  refine ⟨hempty, hh, fun hf => ?_⟩
  have h := elim_flag_spec a d [] f e hmem hf
  rw [show maxPossibleWins e =
    (e.total_wins : Int) + e.games_remaining - (e.h2h_remaining : Int) from rfl, hh] at h
  simpa using h

/-- Witness for C5 at a concrete input with no schedule. -/
theorem claim_C5_witness :
    (("A", w1entry) ∈ calculate_friend_totals w1roster []
      (get_remaining_head_to_head [] 0 w1roster)) ∧
    (get_remaining_head_to_head [] 0 w1roster = [] ∧
    w1entry.h2h_remaining = 0 ∧
    (("A" : String) ≠ "Undrafted" →
      (w1entry.is_eliminated = true ↔
        (w1entry.total_wins : Int) + w1entry.games_remaining <
          bestOtherGuarantee (baseTotals w1roster [] []) "A"))) :=
  ⟨by decide, claim_C5 _ _ _ _ _ (by decide)⟩

/-- Claim C6 (amended): the source computes
`games_remaining = len(teams) * 82 - total_games_played` with no clamping
and no warning; the quantity is non-negative provided every team record in
the input reports at most 82 games played, and it goes negative when the
provider over-reports. -/
theorem claim_C6 (a : Assignments) (d : TeamData) (h2h : H2HCounts)
    (hb : ∀ p ∈ d, p.2.games_played ≤ 82) (f : String) (e : FriendEntry)
    (hmem : (f, e) ∈ calculate_friend_totals a d h2h) :
    0 ≤ e.games_remaining := by
  obtain ⟨ts, -, rfl⟩ := (mem_calculate_iff a d h2h f e).mp hmem
  rw [finalEntry_games_remaining]
  have hle := statSum_le_const 82 (fun s => s.games_played) ts d hb
  omega

/-- Witness for C6 at data that reports at most 82 games per team. -/
theorem claim_C6_witness :
    (∀ p ∈ c6wdata, p.2.games_played ≤ 82) ∧
    (("A", w1entry) ∈ calculate_friend_totals [("A", [])] c6wdata []) ∧
    0 ≤ w1entry.games_remaining :=
  ⟨by decide, by decide, claim_C6 [("A", [])] c6wdata [] (by decide) "A" w1entry (by decide)⟩

/-- Counterexample for C6 as stated: with the programs roster and a
provider record giving Brooklyn Nets 400 games played, the Undrafted
entry of the snapshot carries `games_remaining = 2 * 82 - 400 = -236`,
which is negative: nothing is clamped and no warning is produced. -/
theorem claim_C6_counterexample :
    (((calculate_friend_totals TEAM_ASSIGNMENTS [("Brooklyn Nets", ⟨400, 0, 400, 0⟩)] []).lookup
      "Undrafted").map FriendEntry.games_remaining) = some (-236) ∧
    ¬(0 ≤ (-236 : Int)) :=
  ⟨by decide, by decide⟩

/-- Claim C7 (amended): the stored maximum possible win percentage is
`(currentWins + gamesRemaining) / (82 * rosterSize)` with no head-to-head
subtraction — it is computed before the head-to-head counts are applied
and is unchanged under any head-to-head input; the head-to-head
adjustment affects only the elimination comparison. -/
theorem claim_C7 (a : Assignments) (d : TeamData) (h2h h2h2 : H2HCounts) (f : String)
    (ts : List String) (hmem : (f, ts) ∈ a) :
    ∃ e, (f, e) ∈ calculate_friend_totals a d h2h ∧
      e.max_possible_win_pct =
        (if 0 < ts.length * 82 then
          ((e.total_wins : ℚ) + (e.games_remaining : ℚ)) / ((ts.length * 82 : Nat) : ℚ)
        else 0) ∧
      e.max_possible_win_pct = (finalEntry a d h2h2 f ts).max_possible_win_pct :=
  ⟨finalEntry a d h2h f ts, (mem_calculate_iff a d h2h f _).mpr ⟨ts, hmem, rfl⟩,
    finalEntry_max_pct a d h2h f ts, finalEntry_max_pct_ignores_h2h a a d h2h h2h2 f f ts⟩

/-- Witness for C7 at a concrete one-participant input. -/
theorem claim_C7_witness :
    (("A", ([] : List String)) ∈ ([("A", [])] : Assignments)) ∧
    (∃ e, ("A", e) ∈ calculate_friend_totals [("A", [])] [] [] ∧
      e.max_possible_win_pct =
        (if 0 < ([] : List String).length * 82 then
          ((e.total_wins : ℚ) + (e.games_remaining : ℚ)) /
            ((([] : List String).length * 82 : Nat) : ℚ)
        else 0) ∧
      e.max_possible_win_pct = (finalEntry [("A", [])] [] [("A", 1)] "A" []).max_possible_win_pct) :=
  ⟨by decide, claim_C7 _ _ [] [("A", 1)] _ _ (by decide)⟩

/-- Counterexample for C7 as stated: participant A holds 10 wins, 144
games remaining and 1 remaining head-to-head game, so the claimed value
is `(10 + 144 - 1) / 164 = 153 / 164`; the stored percentage is
`154 / 164`, i.e. the head-to-head count is not subtracted. -/
theorem claim_C7_counterexample :
    ("A", c7entry) ∈ calculate_friend_totals c8roster c7data c7h2h ∧
    c7entry.max_possible_win_pct ≠
      (maxPossibleWins c7entry : ℚ) / ((82 * c7entry.teams.length : Nat) : ℚ) := by
  refine ⟨(mem_calculate_iff c8roster c7data c7h2h "A" _).mpr ⟨["T1", "T2"], by decide, rfl⟩, ?_⟩
  have hpct := finalEntry_max_pct c8roster c7data c7h2h "A" ["T1", "T2"]
  rw [show c7entry.max_possible_win_pct =
    (finalEntry c8roster c7data c7h2h "A" ["T1", "T2"]).max_possible_win_pct from rfl, hpct]
  rw [show maxPossibleWins c7entry = 153 from by decide]
  rw [show c7entry.teams.length = 2 from by decide]
  rw [show (finalEntry c8roster c7data c7h2h "A" ["T1", "T2"]).total_wins = 10 from by decide]
  rw [show (finalEntry c8roster c7data c7h2h "A" ["T1", "T2"]).games_remaining = 144 from by decide]
  rw [if_pos (by norm_num)]
  norm_num

/-- Claim C8 (amended): the recalculation is a pure function of the
roster, the team stats, the cached season schedule and the current date:
runs with identical values of those four inputs produce identical
snapshots, and the model never mutates the default roster (it is only
read). -/
theorem claim_C8 (r r2 : Assignments) (s s2 : TeamData) (sch sch2 : List Fixture)
    (today today2 : Nat) (hr : r = r2) (hs : s = s2) (hsch : sch = sch2)
    (ht : today = today2) :
    recalculate r s sch today = recalculate r2 s2 sch2 today2 := by
  subst hr hs hsch ht
  rfl

/-- Witness for C8 at one concrete input. -/
theorem claim_C8_witness :
    (c8roster = c8roster) ∧ (([] : TeamData) = []) ∧ (c8schedule = c8schedule) ∧
    ((20260101 : Nat) = 20260101) ∧
    recalculate c8roster [] c8schedule 20260101 = recalculate c8roster [] c8schedule 20260101 :=
  ⟨rfl, rfl, rfl, rfl, claim_C8 c8roster c8roster [] [] c8schedule c8schedule
    20260101 20260101 rfl rfl rfl rfl⟩

/-- Counterexample for C8 as stated: with the roster and team stats held
fixed, running the recalculation on 2026-01-01 and on 2026-02-01 yields
different snapshots (the T1-T2 fixture of 2026-01-05 lies between the two
dates, so the head-to-head count of participant A drops from 1 to 0), so
the snapshot is not a pure function of the pair (roster, team stats)
alone. -/
theorem claim_C8_counterexample :
    recalculate c8roster [] c8schedule 20260101 ≠ recalculate c8roster [] c8schedule 20260201 := by
  intro h
  have h2 := congrArg (fun l => (l.lookup "A").map FriendEntry.h2h_remaining) h
  simp only at h2
  exact absurd h2 (by decide)

/-- Claim C9: for every participant and every date of the target axis,
the timeline holds the value obtained by taking, for each owned team, the
most recent recorded result dated on or before that date (carry-forward,
no interpolation), summing wins and losses across the roster and
dividing; when the roster has zero games played as of that date the value
is 0 and no division fault occurs. -/
theorem claim_C9 (a : Assignments) (records : List (String × TeamRecord)) (dates : List Nat)
    (hr : records ≠ []) (hd : dates ≠ []) (f : String) (ts : List String)
    (hmem : (f, ts) ∈ a) (dt : Nat) (hdt : dt ∈ dates) :
    ∃ series, (f, series) ∈ (calculate_friend_historical_standings a records dates).getD [] ∧
      (dt, specFriendPointAt records ts dt) ∈ series ∧
      ((ts.map (fun t => (specTeamContribution records t dt).1)).sum +
        (ts.map (fun t => (specTeamContribution records t dt).2)).sum = 0 →
        specFriendPointAt records ts dt = 0) := by
  have hcond : ¬(records.isEmpty = true ∨ dates.isEmpty = true) := by
    simp [List.isEmpty_iff, hr, hd]
  have hsome : calculate_friend_historical_standings a records dates =
      some (a.map (fun p =>
        (p.1, dates.map (fun dt => (dt, friendPointAt records p.2 dt))))) := by
    unfold calculate_friend_historical_standings
    rw [if_neg hcond]
  refine ⟨dates.map (fun dt => (dt, friendPointAt records ts dt)), ?_, ?_, ?_⟩
  · rw [hsome]
    simp only [Option.getD_some]
    exact List.mem_map_of_mem _ hmem
  · rw [← friendPointAt_eq_spec]
    exact List.mem_map_of_mem _ hdt
  · intro h0
    have heq : specFriendPointAt records ts dt =
        (if 0 < (ts.map (fun t => (specTeamContribution records t dt).1)).sum +
            (ts.map (fun t => (specTeamContribution records t dt).2)).sum then
          (((ts.map (fun t => (specTeamContribution records t dt).1)).sum : Nat) : ℚ) /
            ((((ts.map (fun t => (specTeamContribution records t dt).1)).sum : Nat) : ℚ) +
              (((ts.map (fun t => (specTeamContribution records t dt).2)).sum : Nat) : ℚ)) * 100
        else 0) := rfl
    rw [heq, if_neg (by omega)]

/-- Witness for C9 at a one-team, one-date input with an empty history,
exercising the zero-games case. -/
theorem claim_C9_witness :
    (c9wrecords ≠ []) ∧ (([1] : List Nat) ≠ []) ∧
    (("A", ["T1"]) ∈ ([("A", ["T1"])] : Assignments)) ∧ ((1 : Nat) ∈ [1]) ∧
    (∃ series, ("A", series) ∈
        (calculate_friend_historical_standings [("A", ["T1"])] c9wrecords [1]).getD [] ∧
      (1, specFriendPointAt c9wrecords ["T1"] 1) ∈ series ∧
      ((["T1"].map (fun t => (specTeamContribution c9wrecords t 1).1)).sum +
        (["T1"].map (fun t => (specTeamContribution c9wrecords t 1).2)).sum = 0 →
        specFriendPointAt c9wrecords ["T1"] 1 = 0)) :=
  ⟨by decide, by decide, by decide, by decide,
    claim_C9 _ _ _ (by decide) (by decide) _ _ (by decide) _ (by decide)⟩

/-- Claim C10: for every team-stats input the totals computation is total
and yields one entry per roster participant (same keys in the same
order), and each derived ratio is 0 whenever its denominator is zero:
the win percentage when no games were recorded, the per-game point
differential when the games-played sum is zero, and the maximum possible
win percentage when the roster is empty. -/
theorem claim_C10 (a : Assignments) (d : TeamData) (h2h : H2HCounts) (f : String)
    (ts : List String) (hmem : (f, ts) ∈ a) :
    (calculate_friend_totals a d h2h).map Prod.fst = a.map Prod.fst ∧
    ∃ e, (f, e) ∈ calculate_friend_totals a d h2h ∧
      (e.total_games = 0 → e.win_pct = 0) ∧
      (statSum (fun s => s.games_played) ts d = 0 → e.point_diff_per_game = 0) ∧
      (ts.length = 0 → e.max_possible_win_pct = 0) := by
  refine ⟨calculate_keys a d h2h, finalEntry a d h2h f ts,
    (mem_calculate_iff a d h2h f _).mpr ⟨ts, hmem, rfl⟩, ?_, ?_, ?_⟩
  · intro h0
    rw [finalEntry_total_games] at h0
    rw [finalEntry_win_pct, if_neg (by omega)]
  · intro h0
    rw [finalEntry_point_diff, if_neg (by omega)]
  · intro h0
    rw [finalEntry_max_pct, if_neg (by simp [h0])]

/-- Witness for C10 at an empty-roster participant with empty data, where
all three denominators are zero. -/
theorem claim_C10_witness :
    (("A", ([] : List String)) ∈ ([("A", [])] : Assignments)) ∧
    ((calculate_friend_totals [("A", [])] [] []).map Prod.fst =
      ([("A", [])] : Assignments).map Prod.fst ∧
    ∃ e, ("A", e) ∈ calculate_friend_totals [("A", [])] [] [] ∧
      (e.total_games = 0 → e.win_pct = 0) ∧
      (statSum (fun s => s.games_played) [] [] = 0 → e.point_diff_per_game = 0) ∧
      (([] : List String).length = 0 → e.max_possible_win_pct = 0)) :=
  ⟨by decide, claim_C10 _ _ _ _ _ (by decide)⟩
